import Mathlib

/-!
# Verification of pyspid (SPID rotator driver)

Shallow embedding of `src/pyspid/pyspid.py` and `src/pyspid/tracker.py`.

* Serial bytes are modelled as natural numbers; a status response is a
  `List ℕ` of byte values.
* Python float arithmetic is idealised as exact rational arithmetic (`ℚ`).
* The serial channel and the astropy coordinate collaborator are modelled
  as oracle streams indexed by read number / loop tick.
-/

namespace Pyspid

/-! ## Status-frame decoding (pyspid.py, `get_location`, lines 117-147)

`get_location` reads a 12-byte response and computes

    _az = response[1]*100 + response[2]*10 + response[3] + response[4]/10
    _el = response[6]*100 + response[7]*10 + response[8] + response[9]/10
    _az -= 2*360
    _el -= 360
-/

/-- Raw azimuth value of a status response, before offset correction:
`response[1]*100 + response[2]*10 + response[3] + response[4]/10`
(pyspid.py line 127). Out-of-range indices read as 0. -/
def rawAz (response : List ℕ) : ℚ :=
  (response.getD 1 0 : ℚ) * 100 + (response.getD 2 0 : ℚ) * 10
    + (response.getD 3 0 : ℚ) + (response.getD 4 0 : ℚ) / 10

/-- Raw elevation value of a status response, before offset correction:
`response[6]*100 + response[7]*10 + response[8] + response[9]/10`
(pyspid.py line 128). -/
def rawEl (response : List ℕ) : ℚ :=
  (response.getD 6 0 : ℚ) * 100 + (response.getD 7 0 : ℚ) * 10
    + (response.getD 8 0 : ℚ) + (response.getD 9 0 : ℚ) / 10

/-- Decoded azimuth after the offset correction `self._az -= 2 * 360`
(pyspid.py line 131). -/
def decodeAz (response : List ℕ) : ℚ := rawAz response - 2 * 360

/-- Decoded elevation after the offset correction `self._el -= 360`
(pyspid.py line 134). -/
def decodeEl (response : List ℕ) : ℚ := rawEl response - 360

/-- A valid raw status frame: exactly 12 bytes, and each of the eight
position-digit bytes (1-4 azimuth, 6-9 elevation) is a decimal digit value
(spec §3: "bytes 1–4 encode azimuth digits ... bytes 6–9 encode elevation
digits"). -/
def ValidFrame (response : List ℕ) : Prop :=
  response.length = 12
    ∧ response.getD 1 0 ≤ 9 ∧ response.getD 2 0 ≤ 9
    ∧ response.getD 3 0 ≤ 9 ∧ response.getD 4 0 ≤ 9
    ∧ response.getD 6 0 ≤ 9 ∧ response.getD 7 0 ≤ 9
    ∧ response.getD 8 0 ≤ 9 ∧ response.getD 9 0 ≤ 9

instance (response : List ℕ) : Decidable (ValidFrame response) := by
  unfold ValidFrame; infer_instance

/-- The named pair returned by `get_location` (pyspid.py line 146):
`namedtuple("current_Alt_Az", ("Alt, Az"))` — the field named `Alt` comes
first and the field named `Az` second. -/
structure AltAzPair where
  Alt : ℚ
  Az : ℚ
deriving DecidableEq

/-- `get_location` body after the response is obtained (pyspid.py lines
127-147): decode both axes, then `return alt_az_tuple(self._az, self._el)` —
the azimuth is passed as the first positional slot (field `Alt`) and the
elevation as the second (field `Az`). -/
def get_location (response : List ℕ) : AltAzPair :=
  { Alt := decodeAz response, Az := decodeEl response }

/-- Positional unpacking of the returned namedtuple, as done by
`self.current_az, self.current_alt = self.pyspid_obj.get_location()`
(tracker.py line 180): first field, then second field. -/
def unpack (p : AltAzPair) : ℚ × ℚ := (p.Alt, p.Az)

end Pyspid

namespace Pyspid

/-! ### C5: decoded ranges -/

/-- The all-zero status frame: 12 zero bytes. It is a valid frame (every
digit byte is a decimal digit). -/
def zeroFrame : List ℕ := List.replicate 12 0

/-- C5, counterexample. The claim says every valid raw 12-byte status frame
decodes (after offset correction) to azimuth in [0,360) and elevation in
[0,180). The all-zero frame is valid, yet decodes to azimuth −720 and
elevation −360, both negative. -/
theorem decode_range_counterexample :
    ValidFrame zeroFrame
      ∧ decodeAz zeroFrame = -720 ∧ decodeEl zeroFrame = -360
      ∧ ¬ (0 ≤ decodeAz zeroFrame ∧ decodeAz zeroFrame < 360)
      ∧ ¬ (0 ≤ decodeEl zeroFrame ∧ decodeEl zeroFrame < 180) := by
  have e1 : zeroFrame.getD 1 0 = 0 := rfl
  have e2 : zeroFrame.getD 2 0 = 0 := rfl
  have e3 : zeroFrame.getD 3 0 = 0 := rfl
  have e4 : zeroFrame.getD 4 0 = 0 := rfl
  have e6 : zeroFrame.getD 6 0 = 0 := rfl
  have e7 : zeroFrame.getD 7 0 = 0 := rfl
  have e8 : zeroFrame.getD 8 0 = 0 := rfl
  have e9 : zeroFrame.getD 9 0 = 0 := rfl
  have ha : decodeAz zeroFrame = -720 := by
    unfold decodeAz rawAz; rw [e1, e2, e3, e4]; norm_num
  have he : decodeEl zeroFrame = -360 := by
    unfold decodeEl rawEl; rw [e6, e7, e8, e9]; norm_num
  refine ⟨by decide, ha, he, ?_, ?_⟩
  · rw [ha]; rintro ⟨h, -⟩; norm_num at h
  · rw [he]; rintro ⟨h, -⟩; norm_num at h

/-- C5, amended. For every valid raw status frame the decoded corrected
azimuth lies in [−720, 280) and the decoded corrected elevation lies in
[−360, 640) (the digit bytes can encode raw values only up to 999.9, so the
corrected azimuth never reaches even 280); moreover the decode is a pure
function of the digit bytes alone: any two frames agreeing on bytes 1–4
agree on the decoded azimuth, and any two agreeing on bytes 6–9 agree on
the decoded elevation. -/
theorem decode_range_amended (response : List ℕ) (hv : ValidFrame response) :
    ((-720 ≤ decodeAz response ∧ decodeAz response < 280)
      ∧ (-360 ≤ decodeEl response ∧ decodeEl response < 640))
    ∧ (∀ other : List ℕ,
        (response.getD 1 0 = other.getD 1 0 ∧ response.getD 2 0 = other.getD 2 0
          ∧ response.getD 3 0 = other.getD 3 0 ∧ response.getD 4 0 = other.getD 4 0) →
        decodeAz response = decodeAz other)
    ∧ (∀ other : List ℕ,
        (response.getD 6 0 = other.getD 6 0 ∧ response.getD 7 0 = other.getD 7 0
          ∧ response.getD 8 0 = other.getD 8 0 ∧ response.getD 9 0 = other.getD 9 0) →
        decodeEl response = decodeEl other) := by
  obtain ⟨-, h1, h2, h3, h4, h6, h7, h8, h9⟩ := hv
  refine ⟨⟨⟨?_, ?_⟩, ?_, ?_⟩, ?_, ?_⟩
  · have c1 : (0:ℚ) ≤ (response.getD 1 0 : ℚ) := by positivity
    have c2 : (0:ℚ) ≤ (response.getD 2 0 : ℚ) := by positivity
    have c3 : (0:ℚ) ≤ (response.getD 3 0 : ℚ) := by positivity
    have c4 : (0:ℚ) ≤ (response.getD 4 0 : ℚ) := by positivity
    unfold decodeAz rawAz
    linarith
  · have c1 : (response.getD 1 0 : ℚ) ≤ 9 := by exact_mod_cast h1
    have c2 : (response.getD 2 0 : ℚ) ≤ 9 := by exact_mod_cast h2
    have c3 : (response.getD 3 0 : ℚ) ≤ 9 := by exact_mod_cast h3
    have c4 : (response.getD 4 0 : ℚ) ≤ 9 := by exact_mod_cast h4
    unfold decodeAz rawAz
    linarith
  · have c6 : (0:ℚ) ≤ (response.getD 6 0 : ℚ) := by positivity
    have c7 : (0:ℚ) ≤ (response.getD 7 0 : ℚ) := by positivity
    have c8 : (0:ℚ) ≤ (response.getD 8 0 : ℚ) := by positivity
    have c9 : (0:ℚ) ≤ (response.getD 9 0 : ℚ) := by positivity
    unfold decodeEl rawEl
    linarith
  · have c6 : (response.getD 6 0 : ℚ) ≤ 9 := by exact_mod_cast h6
    have c7 : (response.getD 7 0 : ℚ) ≤ 9 := by exact_mod_cast h7
    have c8 : (response.getD 8 0 : ℚ) ≤ 9 := by exact_mod_cast h8
    have c9 : (response.getD 9 0 : ℚ) ≤ 9 := by exact_mod_cast h9
    unfold decodeEl rawEl
    linarith
  · rintro other ⟨e1, e2, e3, e4⟩
    unfold decodeAz rawAz
    rw [e1, e2, e3, e4]
  · rintro other ⟨e6, e7, e8, e9⟩
    unfold decodeEl rawEl
    rw [e6, e7, e8, e9]

/-- C5, witness: the amended theorem applied to the all-zero frame. -/
theorem decode_range_amended_witness :
    ((-720 ≤ decodeAz zeroFrame ∧ decodeAz zeroFrame < 280)
      ∧ (-360 ≤ decodeEl zeroFrame ∧ decodeEl zeroFrame < 640))
    ∧ (∀ other : List ℕ,
        (zeroFrame.getD 1 0 = other.getD 1 0 ∧ zeroFrame.getD 2 0 = other.getD 2 0
          ∧ zeroFrame.getD 3 0 = other.getD 3 0 ∧ zeroFrame.getD 4 0 = other.getD 4 0) →
        decodeAz zeroFrame = decodeAz other)
    ∧ (∀ other : List ℕ,
        (zeroFrame.getD 6 0 = other.getD 6 0 ∧ zeroFrame.getD 7 0 = other.getD 7 0
          ∧ zeroFrame.getD 8 0 = other.getD 8 0 ∧ zeroFrame.getD 9 0 = other.getD 9 0) →
        decodeEl zeroFrame = decodeEl other) :=
  decode_range_amended zeroFrame (by decide)

/-! ### C10: field names of the returned pair -/

/-- C10. For every response, the pair returned by `get_location` carries the
decoded azimuth as its first component and the decoded elevation as its
second, while the namedtuple's field names are `(Alt, Az)` in that order: the
field named `Alt` holds the azimuth value and the field named `Az` holds the
elevation value, so positional unpacking as `(azimuth, elevation)` — which is
what tracker.py line 180 does — reads it correctly. -/
theorem get_location_field_swap (response : List ℕ) :
    (get_location response).Alt = decodeAz response
      ∧ (get_location response).Az = decodeEl response
      ∧ unpack (get_location response) = (decodeAz response, decodeEl response) := by
  refine ⟨rfl, rfl, rfl⟩

end Pyspid

namespace Pyspid

/-! ## Move commands (pyspid.py, `go_to`, lines 170-221) -/

/-- The content of one move-command frame written by `go_to` (pyspid.py
lines 209-220): the scaled azimuth and elevation payload values and the two
multipliers, wrapped by the fixed lead byte and function code. The decimal
digit rendering of the payload (lines 198-206) is modelled separately by
`encodeAxis` below. -/
structure GoToFrame where
  azEnc : ℚ
  azMulti : ℕ
  elEnc : ℚ
  elMulti : ℕ
deriving DecidableEq

/-- The mutable state of a `PySpid` object as seen by `go_to`: the two axis
multipliers learned at init (`self.az_multi`, `self.el_multi`), the stored
current position (`self._az`, `self._el`), and the frames written so far to
the serial channel. -/
structure PySpidState where
  az_multi : ℕ
  el_multi : ℕ
  curAz : Option ℚ
  curEl : Option ℚ
  written : List GoToFrame
deriving DecidableEq

/-- `go_to` (pyspid.py lines 170-221): reject and return `False` if
`not 0 <= el <= 180` (line 181) or `not 0 <= az <= 360` (line 184), touching
nothing; otherwise add the controller-reference offsets (`az += 2*360`,
`el += 360`), multiply by the stored multipliers, build the message and
write it, returning `True`. -/
def go_to (s : PySpidState) (az el : ℚ) : Bool × PySpidState :=
  if ¬ (0 ≤ el ∧ el ≤ 180) then (false, s)
  else if ¬ (0 ≤ az ∧ az ≤ 360) then (false, s)
  else
    let az2 := (az + 2 * 360) * (s.az_multi : ℚ)
    let el2 := (el + 360) * (s.el_multi : ℚ)
    (true, { s with written := s.written ++ [⟨az2, s.az_multi, el2, s.el_multi⟩] })

end Pyspid

namespace Pyspid

/-! ### C4: move-command validation -/

/-- C4. For all inputs `az` and `el`, `go_to` returns `true` and appends
exactly one command frame if and only if `az ∈ [0,360]` and `el ∈ [0,180]`;
when either is out of range it returns `false` and leaves the whole state —
written frames, stored current position, multipliers — unchanged. -/
theorem go_to_validation (s : PySpidState) (az el : ℚ) :
    (((go_to s az el).1 = true
        ∧ (go_to s az el).2.written = s.written
            ++ [⟨(az + 2 * 360) * (s.az_multi : ℚ), s.az_multi,
                 (el + 360) * (s.el_multi : ℚ), s.el_multi⟩])
      ↔ ((0 ≤ az ∧ az ≤ 360) ∧ (0 ≤ el ∧ el ≤ 180)))
    ∧ (¬ ((0 ≤ az ∧ az ≤ 360) ∧ (0 ≤ el ∧ el ≤ 180)) → go_to s az el = (false, s)) := by
  by_cases hel : 0 ≤ el ∧ el ≤ 180 <;> by_cases haz : 0 ≤ az ∧ az ≤ 360 <;>
    constructor <;> simp [go_to, hel, haz]

/-- A concrete link state: multipliers 1, no stored position, nothing
written yet. -/
def freshLink : PySpidState := ⟨1, 1, none, none, []⟩

/-- C4, witness: the spec's three scenarios at a concrete link state.
`go_to az=400 el=90` rejects, `go_to az=180 el=200` rejects, and
`go_to az=180 el=90` succeeds appending exactly one frame. -/
theorem go_to_validation_witness :
    go_to freshLink 400 90 = (false, freshLink)
      ∧ go_to freshLink 180 200 = (false, freshLink)
      ∧ (go_to freshLink 180 90).1 = true
      ∧ (go_to freshLink 180 90).2.written.length = 1 := by
  refine ⟨(go_to_validation freshLink 400 90).2 (by norm_num),
          (go_to_validation freshLink 180 200).2 (by norm_num), ?_, ?_⟩
  · exact (((go_to_validation freshLink 180 90).1.mpr (by norm_num))).1
  · have h := (((go_to_validation freshLink 180 90).1.mpr (by norm_num))).2
    rw [h]
    rfl

end Pyspid

namespace Pyspid

/-! ## Move-command payload rendering (pyspid.py, lines 192-206)

The scaled positions are rendered with Python `str` and zero-padded:

    az = str(az); el = str(el)
    if len(az) == 3: az = "0" + az
    if len(el) == 3: el = "0" + el
-/

/-- Decimal digits of a natural number, most significant first — the
rendering Python's `str` produces for a nonnegative integer (pyspid.py
lines 198-199 apply `str` to the scaled positions; the integral case is the
one every theorem below evaluates). Digit characters are abstracted to
their digit values. -/
def pyStr (n : ℕ) : List ℕ := (Nat.digits 10 n).reverse

/-- The zero-padding step of `go_to` (pyspid.py lines 201-206): a
3-character rendering gets one leading `"0"`; any other length is left
alone. -/
def padIfLen3 (l : List ℕ) : List ℕ := if l.length = 3 then 0 :: l else l

/-- One axis of the move-command payload (pyspid.py lines 192-206): add the
controller-reference offset (720 for azimuth, 360 for elevation), multiply
by the stored multiplier, render in decimal, zero-pad a 3-digit rendering
to 4 digits. -/
def encodeAxis (deg offset multi : ℕ) : List ℕ :=
  padIfLen3 (pyStr ((deg + offset) * multi))

/-- The status-frame digit decode applied to a 4-digit payload, skipping
multiplier and offset handling (the formula of pyspid.py lines 127-128 on
the four payload digits): `d1*100 + d2*10 + d3 + d4/10`. -/
def decode4 (l : List ℕ) : ℚ :=
  (l.getD 0 0 : ℚ) * 100 + (l.getD 1 0 : ℚ) * 10 + (l.getD 2 0 : ℚ)
    + (l.getD 3 0 : ℚ) / 10

/-- Decimal rendering of a three-digit number. -/
lemma pyStr_three (n : ℕ) (h1 : 100 ≤ n) (h2 : n ≤ 999) :
    pyStr n = [n / 100, n / 10 % 10, n % 10] := by
  have d1 : 0 < n / 10 := by omega
  have d2 : 0 < n / 10 / 10 := by omega
  have d3 : n / 10 / 10 / 10 = 0 := by omega
  have e2 : n / 10 / 10 % 10 = n / 100 := by omega
  have e1 : n / 10 % 10 = n / 10 % 10 := rfl
  unfold pyStr
  rw [Nat.digits_def' (by norm_num : (1:ℕ) < 10) (show 0 < n by omega),
    Nat.digits_def' (by norm_num : (1:ℕ) < 10) d1,
    Nat.digits_def' (by norm_num : (1:ℕ) < 10) d2,
    d3, Nat.digits_zero, e2]
  rfl

/-- Decimal rendering of a four-digit number. -/
lemma pyStr_four (n : ℕ) (h1 : 1000 ≤ n) (h2 : n ≤ 9999) :
    pyStr n = [n / 1000, n / 100 % 10, n / 10 % 10, n % 10] := by
  have d1 : 0 < n / 10 := by omega
  have d2 : 0 < n / 10 / 10 := by omega
  have d3 : 0 < n / 10 / 10 / 10 := by omega
  have d4 : n / 10 / 10 / 10 / 10 = 0 := by omega
  have e3 : n / 10 / 10 / 10 % 10 = n / 1000 := by omega
  have e2 : n / 10 / 10 % 10 = n / 100 % 10 := by omega
  unfold pyStr
  rw [Nat.digits_def' (by norm_num : (1:ℕ) < 10) (show 0 < n by omega),
    Nat.digits_def' (by norm_num : (1:ℕ) < 10) d1,
    Nat.digits_def' (by norm_num : (1:ℕ) < 10) d2,
    Nat.digits_def' (by norm_num : (1:ℕ) < 10) d3,
    d4, Nat.digits_zero, e3, e2]
  rfl

/-- Digit-decoding the padded rendering of a number of three or four digits
yields the number divided by 10. -/
lemma decode4_pad_pyStr (m : ℕ) (h1 : 100 ≤ m) (h2 : m ≤ 9999) :
    decode4 (padIfLen3 (pyStr m)) = (m : ℚ) / 10 := by
  by_cases h3 : m ≤ 999
  · rw [pyStr_three m h1 h3,
      show padIfLen3 [m / 100, m / 10 % 10, m % 10]
        = [0, m / 100, m / 10 % 10, m % 10] from rfl]
    unfold decode4
    simp only [List.getD_cons_zero, List.getD_cons_succ]
    have hrepr : m = 100 * (m / 100) + 10 * (m / 10 % 10) + m % 10 := by omega
    have hc : (m : ℚ) = 100 * ((m / 100 : ℕ) : ℚ) + 10 * ((m / 10 % 10 : ℕ) : ℚ)
        + ((m % 10 : ℕ) : ℚ) := by exact_mod_cast hrepr
    rw [hc]
    ring
  · have h4 : 1000 ≤ m := by omega
    rw [pyStr_four m h4 h2,
      show padIfLen3 [m / 1000, m / 100 % 10, m / 10 % 10, m % 10]
        = [m / 1000, m / 100 % 10, m / 10 % 10, m % 10] from rfl]
    unfold decode4
    simp only [List.getD_cons_zero, List.getD_cons_succ]
    have hrepr : m = 1000 * (m / 1000) + 100 * (m / 100 % 10) + 10 * (m / 10 % 10)
        + m % 10 := by omega
    have hc : (m : ℚ) = 1000 * ((m / 1000 : ℕ) : ℚ) + 100 * ((m / 100 % 10 : ℕ) : ℚ)
        + 10 * ((m / 10 % 10 : ℕ) : ℚ) + ((m % 10 : ℕ) : ℚ) := by exact_mod_cast hrepr
    rw [hc]
    ring

end Pyspid

namespace Pyspid

/-! ### C6: encode-then-decode round trip -/

/-- C6, counterexample. The claim says feeding the encoded payload back
through the digit decode recovers the original value to within 0.1°. With
both multipliers 1 (a legitimate stored value), target azimuth 180 encodes
to the padded digits `0900`, which the decode path — reading the fourth
digit as tenths — turns into 90, off by 90°; target elevation 90 encodes to
`0450`, decoded as 45, off by 45°. -/
theorem encode_decode_counterexample :
    decode4 (encodeAxis 180 720 1) = 90
      ∧ ¬ |decode4 (encodeAxis 180 720 1) - 180| ≤ 1 / 10
      ∧ decode4 (encodeAxis 90 360 1) = 45
      ∧ ¬ |decode4 (encodeAxis 90 360 1) - 90| ≤ 1 / 10 := by
  have haz : encodeAxis 180 720 1 = [0, 9, 0, 0] := by
    unfold encodeAxis
    rw [show (180 + 720) * 1 = 900 by norm_num,
      pyStr_three 900 (by norm_num) (by norm_num)]
    rfl
  have hel : encodeAxis 90 360 1 = [0, 4, 5, 0] := by
    unfold encodeAxis
    rw [show (90 + 360) * 1 = 450 by norm_num,
      pyStr_three 450 (by norm_num) (by norm_num)]
    rfl
  have h90 : decode4 (encodeAxis 180 720 1) = 90 := by
    rw [haz]; unfold decode4; norm_num
  have h45 : decode4 (encodeAxis 90 360 1) = 45 := by
    rw [hel]; unfold decode4; norm_num
  refine ⟨h90, ?_, h45, ?_⟩
  · rw [h90, show (90:ℚ) - 180 = -90 by norm_num, abs_neg,
      abs_of_nonneg (by norm_num : (0:ℚ) ≤ 90)]
    norm_num
  · rw [h45, show (45:ℚ) - 90 = -45 by norm_num, abs_neg,
      abs_of_nonneg (by norm_num : (0:ℚ) ≤ 45)]
    norm_num

/-- C6, amended. For an integer target and offset/multiplier such that the
scaled value `(deg + offset) * multi` has at most four digits, feeding the
encoded payload back through the digit decode yields exactly
`(deg + offset) * multi / 10` — the decode path reads the last payload
digit as tenths — rather than the original target; the original is
recovered only as `10 * decoded / multi − offset`, not to within 0.1° as
claimed. -/
theorem encode_decode_amended (deg offset multi : ℕ)
    (h1 : 100 ≤ (deg + offset) * multi) (h2 : (deg + offset) * multi ≤ 9999) :
    decode4 (encodeAxis deg offset multi) = (((deg + offset) * multi : ℕ) : ℚ) / 10 := by
  unfold encodeAxis
  exact decode4_pad_pyStr ((deg + offset) * multi) h1 h2

/-- C6, witness: the amended theorem at azimuth 180 with multiplier 10:
the scaled value 9000 is four digits and decodes back to 900.0. -/
theorem encode_decode_amended_witness :
    100 ≤ (180 + 720) * 10 ∧ (180 + 720) * 10 ≤ 9999
      ∧ decode4 (encodeAxis 180 720 10) = (((180 + 720) * 10 : ℕ) : ℚ) / 10 :=
  ⟨by norm_num, by norm_num,
    encode_decode_amended 180 720 10 (by norm_num) (by norm_num)⟩

end Pyspid

namespace Pyspid

/-! ## Status reads (pyspid.py, `get_response`, lines 149-168)

    count = 0
    response = b""
    while count < 10:
        _ = self.serial_obj.write(out.encode())
        sleep(0.75)
        response = self.serial_obj.read(12)
        if len(response) >= 12:
            break
    else:
        logging.error("Did not get response, closing!")
        self.end()
    return response

Note that the loop body never changes `count`.
-/

/-- State of one `get_response` call: the loop counter `count`, the number
of write-wait-read cycles performed so far, the last `response` read, a
flag recording whether `self.end()` has closed the serial channel, and a
flag recording whether the loop has exited (by `break`, or by the `while`
condition failing into the `else` clause). -/
structure GetRespState where
  count : ℕ
  cycles : ℕ
  response : List ℕ
  closed : Bool
  exited : Bool
deriving DecidableEq

/-- State at loop entry: `count = 0`, `response = b""` (pyspid.py lines
156-157). -/
def getRespInit : GetRespState :=
  { count := 0, cycles := 0, response := [], closed := false, exited := false }

/-- One evaluation of the `while` header plus, if taken, one loop body of
`get_response` (pyspid.py lines 158-167), against a serial channel modelled
as the stream `reads` of successive 12-byte-read results. When `count < 10`
holds the body writes the request, waits 750 ms, reads, and breaks once the
response has length ≥ 12; the body does not modify `count` anywhere. When
the condition fails, Python's `while`-`else` clause runs: log the error and
`self.end()`, closing the channel. A state already out of the loop is left
unchanged. -/
def get_response_step (reads : ℕ → List ℕ) (s : GetRespState) : GetRespState :=
  if s.exited then s
  else if s.count < 10 then
    let r := reads s.cycles
    if 12 ≤ r.length then
      { s with cycles := s.cycles + 1, response := r, exited := true }
    else
      { s with cycles := s.cycles + 1, response := r }
  else
    { s with closed := true, exited := true }

/-- A channel that never returns a full frame: every read yields 0 bytes
(a dead or absent rotator under the zero-timeout read mode). -/
def deadChannel : ℕ → List ℕ := fun _ => []

end Pyspid

namespace Pyspid

/-! ### C1: retry bound of `get_response` -/

/-- C1 (evaluating the code at the failing input). Against a channel that
never returns a 12-byte response, `get_response` does not stop after 10
cycles: the loop body never increments `count`, so `count < 10` stays true
forever, and after any number `n` of steps the loop is still running, has
performed `n` full write-wait-read cycles, has not closed the channel, and
`count` is still 0. The claimed at-most-10-cycles close-and-fail behaviour
never occurs. -/
theorem get_response_unbounded (n : ℕ) :
    ((get_response_step deadChannel)^[n] getRespInit).exited = false
      ∧ ((get_response_step deadChannel)^[n] getRespInit).closed = false
      ∧ ((get_response_step deadChannel)^[n] getRespInit).count = 0
      ∧ ((get_response_step deadChannel)^[n] getRespInit).cycles = n := by
  induction n with
  | zero => exact ⟨rfl, rfl, rfl, rfl⟩
  | succ k ih =>
    obtain ⟨he, hc, hn, hy⟩ := ih
    rw [Function.iterate_succ_apply']
    refine ⟨?_, ?_, ?_, ?_⟩ <;>
      simp [get_response_step, he, hc, hn, hy, deadChannel]

end Pyspid

namespace Pyspid

/-! ## The tracking loop (tracker.py, `_tracker`, lines 152-225)

One pass of the `while self.update` loop reads the current position, asks
astropy for the target-telescope separation, and branches:

    if separation > tolerance:            # line 190
        ... predict future position ...
        if alt_future <= 0:               # line 199
            self.end(); raise RuntimeError("Target has set! Ending")
        # self.pyspid_obj.go_to(...)      # line 209, commented out
    elif separation > 2 * tolerance:      # line 210
        self.on_source = False
        off_source_count += 1
        if off_source_count >= 2:
            self.end(); raise RuntimeError("Can't get on source ...")
    else:                                 # line 222
        self.on_source = True
    sleep(cadence)
-/

/-- Oracle for the serial rotator and the astropy collaborator, indexed by
loop tick: the pair returned by `get_location` (line 180), the
target-telescope separation in degrees computed from it (line 188), and the
predicted target altitude and azimuth `cadence` seconds ahead
(lines 197-198). -/
structure TrackEnv where
  pos : ℕ → AltAzPair
  separation : ℕ → ℚ
  alt_future : ℕ → ℚ
  az_future : ℕ → ℚ

/-- The two fatal loop outcomes: `RuntimeError("Target has set! Ending")`
(line 201) and `RuntimeError("Can't get on source in 3 attempts, something
is wrong. Ending!")` (lines 219-221). -/
inductive TrackError where
  | targetSet
  | trackingLost
deriving DecidableEq

/-- The controller state touched by the tracking loop: the cooperative stop
flag `self.update`, the `self.on_source` flag, the published position, the
local `off_source_count`, the tick index (how many iterations have started),
whether the serial port has been closed, the `go_to` move commands issued so
far, and the error raised, if any. -/
structure TrackerState where
  update : Bool
  on_source : Bool
  current_az : Option ℚ
  current_alt : Option ℚ
  off_source_count : ℕ
  tick : ℕ
  linkClosed : Bool
  moves : List (ℚ × ℚ)
  raised : Option TrackError
deriving DecidableEq

/-- `SpidTracker.end` (tracker.py lines 235-241): set `self.update = False`
and close the serial port via `self.pyspid_obj.end()`. -/
def endTracker (s : TrackerState) : TrackerState :=
  { s with update := false, linkClosed := true }

/-- State at loop entry (tracker.py lines 75-79 and 178): `update = True`,
`on_source = False`, no position published yet, `off_source_count = 0`. -/
def trackerInit : TrackerState :=
  { update := true, on_source := false, current_az := none, current_alt := none,
    off_source_count := 0, tick := 0, linkClosed := false, moves := [],
    raised := none }

/-- One iteration of the `while self.update` loop of `_tracker` (tracker.py
lines 179-225). Line 180 unpacks `get_location`'s pair positionally, so the
first field (`Alt`, holding the decoded azimuth) lands in `current_az` and
the second (`Az`, holding the decoded elevation) in `current_alt`. Then:
`if separation > tolerance` (line 190) predicts the future position, and if
`alt_future <= 0` calls `self.end()` and raises `targetSet` (lines 199-201);
otherwise it falls through to the sleep — the `go_to` call on line 209 is
commented out in the source, so no move command is appended.
`elif separation > 2 * tolerance` (line 210) clears `on_source`, increments
`off_source_count`, and once that reaches 2 calls `self.end()` and raises
`trackingLost` (lines 215-221). Otherwise (line 222) `on_source` is set.
A state whose `update` flag is down, or that has already raised, runs no
iteration. -/
def trackerStep (env : TrackEnv) (tolerance : ℚ) (s : TrackerState) : TrackerState :=
  if s.update = false ∨ s.raised.isSome then s
  else
    let p := env.pos s.tick
    let s1 : TrackerState :=
      { s with current_az := some p.Alt, current_alt := some p.Az }
    let sep := env.separation s.tick
    if sep > tolerance then
      if env.alt_future s.tick ≤ 0 then
        { endTracker s1 with raised := some .targetSet, tick := s1.tick + 1 }
      else
        { s1 with tick := s1.tick + 1 }
    else if sep > 2 * tolerance then
      let s2 : TrackerState :=
        { s1 with on_source := false, off_source_count := s1.off_source_count + 1 }
      if 2 ≤ s2.off_source_count then
        { endTracker s2 with raised := some .trackingLost, tick := s2.tick + 1 }
      else
        { s2 with tick := s2.tick + 1 }
    else
      { s1 with on_source := true, tick := s1.tick + 1 }

/-- A halted loop (stop flag down) runs no further iteration. -/
lemma trackerStep_halted (env : TrackEnv) (tolerance : ℚ) (s : TrackerState)
    (h : s.update = false) : trackerStep env tolerance s = s := by
  simp [trackerStep, h]

end Pyspid

namespace Pyspid

/-! ### C2: no move command is issued in the catching-up band -/

/-- A tick with separation 3° (inside the catching-up band for tolerance 2)
and a predicted future position well above the horizon. -/
def envCatchingUp : TrackEnv :=
  { pos := fun _ => ⟨100, 50⟩, separation := fun _ => 3,
    alt_future := fun _ => 45, az_future := fun _ => 120 }

/-- C2 (evaluating the code at the failing input). With tolerance 2,
separation 3 (so `tolerance < separation ≤ 2 * tolerance`) and predicted
future altitude 45 > 0, the iteration issues no move command at all — the
`go_to` call on tracker.py line 209 is commented out — even though it did
perform a fresh position read; the loop just proceeds to the next tick. -/
theorem tracker_no_move_issued :
    2 < envCatchingUp.separation 0 ∧ envCatchingUp.separation 0 ≤ 2 * 2
      ∧ 0 < envCatchingUp.alt_future 0
      ∧ (trackerStep envCatchingUp 2 trackerInit).moves = []
      ∧ (trackerStep envCatchingUp 2 trackerInit).current_az = some 100
      ∧ (trackerStep envCatchingUp 2 trackerInit).raised = none
      ∧ (trackerStep envCatchingUp 2 trackerInit).update = true := by
  refine ⟨by norm_num [envCatchingUp], by norm_num [envCatchingUp],
    by norm_num [envCatchingUp], ?_, ?_, ?_, ?_⟩ <;>
    norm_num [trackerStep, trackerInit, envCatchingUp, endTracker]

/-! ### C3: the off-source counter and TrackingLost -/

/-- Two consecutive ticks with separation 6° — more than twice the
tolerance 2 — and the target comfortably above the horizon. -/
def envFarOff : TrackEnv :=
  { pos := fun _ => ⟨100, 50⟩, separation := fun _ => 6,
    alt_future := fun _ => 10, az_future := fun _ => 120 }

/-- C3 (evaluating the code at the failing input). With tolerance 2 and
separations 6°, 6° on two consecutive ticks — both > 2×tolerance — the
off-source counter stays at 0 and the loop neither raises `trackingLost`
nor stops nor closes the link: the `elif separation > 2 * tolerance` branch
(tracker.py line 210) is unreachable, because the preceding
`if separation > tolerance` (line 190) already captures every such
iteration. -/
theorem tracker_tracking_lost_dead :
    2 * 2 < envFarOff.separation 0 ∧ 2 * 2 < envFarOff.separation 1
      ∧ (trackerStep envFarOff 2 (trackerStep envFarOff 2 trackerInit)).off_source_count = 0
      ∧ (trackerStep envFarOff 2 (trackerStep envFarOff 2 trackerInit)).raised = none
      ∧ (trackerStep envFarOff 2 (trackerStep envFarOff 2 trackerInit)).update = true
      ∧ (trackerStep envFarOff 2 (trackerStep envFarOff 2 trackerInit)).linkClosed = false := by
  have h1 : trackerStep envFarOff 2 trackerInit
      = { trackerInit with current_az := some 100, current_alt := some 50, tick := 1 } := by
    norm_num [trackerStep, trackerInit, envFarOff]
  rw [h1]
  refine ⟨by norm_num [envFarOff], by norm_num [envFarOff], ?_, ?_, ?_, ?_⟩ <;>
    norm_num [trackerStep, trackerInit, envFarOff, endTracker]

end Pyspid

namespace Pyspid

/-! ### C7: target setting terminates the loop through `end` -/

/-- The state after line 180 of an iteration: the freshly read position
published into `current_az` / `current_alt`. -/
def afterRead (env : TrackEnv) (s : TrackerState) : TrackerState :=
  { s with current_az := some (env.pos s.tick).Alt, current_alt := some (env.pos s.tick).Az }

/-- C7. In any running iteration whose separation exceeds the tolerance and
whose predicted future altitude is ≤ 0, the loop terminates with
`targetSet` on that same tick: the resulting state is exactly the teardown
path `end` (stop flag cleared, serial channel closed) applied to the
position-updated state, with the error then recorded — so the channel is
closed before the raise — and no further iteration changes anything. -/
theorem tracker_target_set (env : TrackEnv) (tolerance : ℚ) (s : TrackerState)
    (hrun : s.update = true) (hraised : s.raised = none)
    (hsep : tolerance < env.separation s.tick)
    (hset : env.alt_future s.tick ≤ 0) :
    (trackerStep env tolerance s).raised = some TrackError.targetSet
      ∧ (trackerStep env tolerance s).update = false
      ∧ (trackerStep env tolerance s).linkClosed = true
      ∧ trackerStep env tolerance s
          = { endTracker (afterRead env s) with raised := some TrackError.targetSet, tick := s.tick + 1 }
      ∧ trackerStep env tolerance (trackerStep env tolerance s) = trackerStep env tolerance s := by
  have hstep : trackerStep env tolerance s
      = { endTracker (afterRead env s) with raised := some TrackError.targetSet, tick := s.tick + 1 } := by
    simp [trackerStep, endTracker, afterRead, hrun, hraised, hsep, hset]
  refine ⟨by rw [hstep], by rw [hstep]; rfl, by rw [hstep]; rfl, hstep, ?_⟩
  have hdown : (trackerStep env tolerance s).update = false := by rw [hstep]; rfl
  exact trackerStep_halted env tolerance _ hdown

/-- A tick with separation 3° and predicted future altitude −1°. -/
def envSetting : TrackEnv :=
  { pos := fun _ => ⟨100, 50⟩, separation := fun _ => 3,
    alt_future := fun _ => -1, az_future := fun _ => 120 }

/-- C7, witness: tolerance 2, separation 3°, predicted altitude −1° at the
first tick. -/
theorem tracker_target_set_witness :
    (trackerStep envSetting 2 trackerInit).raised = some TrackError.targetSet
      ∧ (trackerStep envSetting 2 trackerInit).update = false
      ∧ (trackerStep envSetting 2 trackerInit).linkClosed = true
      ∧ trackerStep envSetting 2 trackerInit
          = { endTracker (afterRead envSetting trackerInit) with raised := some TrackError.targetSet, tick := trackerInit.tick + 1 }
      ∧ trackerStep envSetting 2 (trackerStep envSetting 2 trackerInit)
          = trackerStep envSetting 2 trackerInit :=
  tracker_target_set envSetting 2 trackerInit rfl rfl
    (by norm_num [envSetting, trackerInit]) (by norm_num [envSetting, trackerInit])

end Pyspid

namespace Pyspid

/-! ### C8: the on-source flag -/

/-- Separation 1° on the first tick, 3° afterwards, target well above the
horizon. -/
def envFlagStaysOn : TrackEnv :=
  { pos := fun _ => ⟨100, 50⟩, separation := fun t => if t = 0 then 1 else 3,
    alt_future := fun _ => 45, az_future := fun _ => 120 }

/-- C8, counterexample. The claim says the on-source flag is not true after
any iteration observing a separation greater than the tolerance. With
tolerance 2, a first tick at separation 1° sets the flag; the second tick
observes separation 3° > 2, yet leaves the flag true: the branch taken for
`separation > tolerance` never touches `on_source`. -/
theorem on_source_flag_counterexample :
    2 < envFlagStaysOn.separation 1
      ∧ (trackerStep envFlagStaysOn 2 (trackerStep envFlagStaysOn 2 trackerInit)).on_source
          = true := by
  have h1 : trackerStep envFlagStaysOn 2 trackerInit
      = { trackerInit with current_az := some 100, current_alt := some 50, on_source := true, tick := 1 } := by
    norm_num [trackerStep, trackerInit, envFlagStaysOn]
  refine ⟨by norm_num [envFlagStaysOn], ?_⟩
  rw [h1]
  norm_num [trackerStep, trackerInit, envFlagStaysOn]

/-- C8, amended. For a nonnegative tolerance, a running iteration sets the
on-source flag exactly when it observes separation ≤ tolerance and leaves
it unchanged otherwise (the `elif` branch that would clear it is
unreachable): after the iteration the flag equals
`(separation ≤ tolerance) OR (previous flag)`; in particular it can remain
true after an iteration observing separation greater than the tolerance. -/
theorem on_source_flag_amended (env : TrackEnv) (tolerance : ℚ) (s : TrackerState)
    (htol : 0 ≤ tolerance) (hrun : s.update = true) (hraised : s.raised = none) :
    (trackerStep env tolerance s).on_source
      = (decide (env.separation s.tick ≤ tolerance) || s.on_source) := by
  by_cases hsep : env.separation s.tick > tolerance
  · have hd : decide (env.separation s.tick ≤ tolerance) = false :=
      decide_eq_false (not_le.mpr hsep)
    rw [hd, Bool.false_or]
    by_cases hset : env.alt_future s.tick ≤ 0
    · simp [trackerStep, endTracker, hrun, hraised, hsep, hset]
    · simp [trackerStep, hrun, hraised, hsep, hset]
  · have hle : env.separation s.tick ≤ tolerance := not_lt.mp hsep
    have h2 : ¬ env.separation s.tick > 2 * tolerance := by
      push_neg at hsep ⊢
      linarith
    have hd : decide (env.separation s.tick ≤ tolerance) = true := decide_eq_true hle
    rw [hd, Bool.true_or]
    simp [trackerStep, hrun, hraised, hsep, h2]

/-- C8, witness: the amended theorem on the first tick of the
flag-stays-on scenario. -/
theorem on_source_flag_amended_witness :
    (trackerStep envFlagStaysOn 2 trackerInit).on_source
      = (decide (envFlagStaysOn.separation trackerInit.tick ≤ 2) || trackerInit.on_source) :=
  on_source_flag_amended envFlagStaysOn 2 trackerInit (by norm_num) rfl rfl

end Pyspid

namespace Pyspid

/-! ### C9: the constructor opens the link before validating the tolerance -/

/-- The externally visible events of `SpidTracker.__init__`
(tracker.py lines 41-104). -/
inductive CtorEvent where
  | openLink
  | raiseInvalidTolerance
  | startTrackerThread
  | startUpdateThread
  | closeLink
deriving DecidableEq

/-- `SpidTracker.__init__` (tracker.py lines 41-104) as its sequence of
externally visible events: line 74 `self.pyspid_obj = PySpid(port)` opens
the serial channel first; only then does line 80 validate
`0 <= tolerance < 30`, raising `ValueError` — with no close before or after
it — when the check fails; on success a tracking or location-only thread is
started (lines 87-104). -/
def spidTrackerInitEvents (tolerance : ℚ) (hasTarget : Bool) : List CtorEvent :=
  [.openLink]
    ++ (if ¬ (0 ≤ tolerance ∧ tolerance < 30) then [.raiseInvalidTolerance]
        else if hasTarget then [.startTrackerThread] else [.startUpdateThread])

/-- C9. For a tolerance outside [0,30), the constructor's event trace is
exactly open-the-link followed by raise-invalid-tolerance: the serial
channel has already been opened when the validation fails, and no close
event ever occurs, so the channel is left open as the error propagates. -/
theorem init_bad_tolerance_leaks_link (tolerance : ℚ) (hasTarget : Bool)
    (hbad : ¬ (0 ≤ tolerance ∧ tolerance < 30)) :
    spidTrackerInitEvents tolerance hasTarget
        = [CtorEvent.openLink, CtorEvent.raiseInvalidTolerance]
      ∧ CtorEvent.closeLink ∉ spidTrackerInitEvents tolerance hasTarget := by
  constructor <;> simp [spidTrackerInitEvents, hbad]

/-- C9, witness: tolerance 40 with a target supplied. -/
theorem init_bad_tolerance_leaks_link_witness :
    spidTrackerInitEvents 40 true = [CtorEvent.openLink, CtorEvent.raiseInvalidTolerance]
      ∧ CtorEvent.closeLink ∉ spidTrackerInitEvents 40 true :=
  init_bad_tolerance_leaks_link 40 true (by norm_num)

end Pyspid
